import Mathlib

/-!
Shallow embedding of the Iris repository's cost-analysis and image-aggregation
core (src/cost_analyzer.py and src/iris.py), with theorems settling the
specification's claims about it.

Monetary amounts are embedded as exact rationals (the Python code uses floats
with no internal rounding; the spec's numeric policy says rounding is a
presentation concern only).  Network, filesystem, image decoding and the JSON
decoder of the standard library are modelled as explicit oracles passed to the
embedded functions, so that every embedded function is a pure, executable Lean
function of the code's inputs and those oracles.
-/

/-! ## Cost analyzer (src/cost_analyzer.py) -/

/-- The `ModelType` enum of src/cost_analyzer.py. -/
inductive ModelType
  | claude35Sonnet
  | claude3Haiku
  | claude3Opus
deriving DecidableEq, Repr

/-- The string value of each `ModelType` variant. -/
def ModelType.value : ModelType → String
  | .claude35Sonnet => "claude-3-5-sonnet-20240620"
  | .claude3Haiku => "claude-3-haiku-20240307"
  | .claude3Opus => "claude-3-opus-20240229"

/-- The `ResearchLevel` enum of src/cost_analyzer.py. -/
inductive ResearchLevel
  | basic
  | standard
  | comprehensive
  | premium
deriving DecidableEq, Repr

/-- The string value of each `ResearchLevel` variant. -/
def ResearchLevel.value : ResearchLevel → String
  | .basic => "basic"
  | .standard => "standard"
  | .comprehensive => "comprehensive"
  | .premium => "premium"

/-- The `ModelPricing` dataclass: USD per 1M input/output tokens. -/
structure ModelPricing where
  input_cost : ℚ
  output_cost : ℚ
  name : String
deriving DecidableEq, Repr

/-- The `CostAnalyzer.PRICING` table. -/
def PRICING : ModelType → ModelPricing
  | .claude35Sonnet => ⟨3, 15, "Claude 3.5 Sonnet"⟩
  | .claude3Haiku => ⟨0.25, 1.25, "Claude 3 Haiku"⟩
  | .claude3Opus => ⟨15, 75, "Claude 3 Opus"⟩

/-- The `CostAnalyzer.TOKEN_ESTIMATES` table, as (input, output) pairs. -/
def TOKEN_ESTIMATES : ResearchLevel → ℕ × ℕ
  | .basic => (1000, 800)
  | .standard => (2500, 1200)
  | .comprehensive => (4000, 1200)
  | .premium => (8000, 1500)

/-- The `CostEstimate` dataclass. -/
structure CostEstimate where
  input_tokens : ℕ
  output_tokens : ℕ
  input_cost : ℚ
  output_cost : ℚ
  total_cost : ℚ
  model : String
  research_level : String
deriving DecidableEq, Repr

/-- `CostAnalyzer.estimate_cost`: `custom_tokens` is the optional
(input, output) override of the per-level static token estimates. -/
def estimate_cost (model : ModelType) (research_level : ResearchLevel)
    (custom_tokens : Option (ℕ × ℕ)) : CostEstimate :=
  let pricing := PRICING model
  let tokens := custom_tokens.getD (TOKEN_ESTIMATES research_level)
  let input_tokens := tokens.1
  let output_tokens := tokens.2
  let input_cost := ((input_tokens : ℚ) / 1000000) * pricing.input_cost
  let output_cost := ((output_tokens : ℚ) / 1000000) * pricing.output_cost
  { input_tokens := input_tokens
    output_tokens := output_tokens
    input_cost := input_cost
    output_cost := output_cost
    total_cost := input_cost + output_cost
    model := pricing.name
    research_level := research_level.value }

/-- The model-lookup loop at the head of `CostAnalyzer.track_actual_usage`:
the first `ModelType` whose string value equals `model`. -/
def findModelType (model : String) : Option ModelType :=
  [ModelType.claude35Sonnet, ModelType.claude3Haiku, ModelType.claude3Opus].find?
    (fun mt => mt.value == model)

/-- One entry of `CostAnalyzer.session_costs`: an ISO timestamp string paired
with the recorded `CostEstimate`. -/
structure SessionEntry where
  timestamp : String
  cost : CostEstimate
deriving DecidableEq, Repr

/-- `CostAnalyzer.track_actual_usage`.  The wall-clock timestamp is passed in
as `ts`; the session log is passed and returned explicitly (Python mutates
`self.session_costs`).  Unknown model strings fall back to Sonnet. -/
def track_actual_usage (model : String) (input_tokens output_tokens : ℕ)
    (research_level : String) (ts : String) (session_costs : List SessionEntry) :
    CostEstimate × List SessionEntry :=
  let model_type := (findModelType model).getD ModelType.claude35Sonnet
  let pricing := PRICING model_type
  let input_cost := ((input_tokens : ℚ) / 1000000) * pricing.input_cost
  let output_cost := ((output_tokens : ℚ) / 1000000) * pricing.output_cost
  let actual_cost : CostEstimate :=
    { input_tokens := input_tokens
      output_tokens := output_tokens
      input_cost := input_cost
      output_cost := output_cost
      total_cost := input_cost + output_cost
      model := pricing.name
      research_level := research_level }
  (actual_cost, session_costs ++ [⟨ts, actual_cost⟩])

/-- `CostAnalyzer.get_session_total`: sum of the stored entries' total costs. -/
def get_session_total (session_costs : List SessionEntry) : ℚ :=
  (session_costs.map (fun entry => entry.cost.total_cost)).sum

/-- One call to the usage-recording operation: model string, input tokens,
output tokens, research-level label, timestamp. -/
structure UsageCall where
  model : String
  input_tokens : ℕ
  output_tokens : ℕ
  research_level : String
  ts : String

/-- Run a sequence of `track_actual_usage` calls against a session log,
returning the list of returned cost estimates and the final log. -/
def runCalls (calls : List UsageCall) (session_costs : List SessionEntry) :
    List CostEstimate × List SessionEntry :=
  match calls with
  | [] => ([], session_costs)
  | c :: rest =>
    let r := track_actual_usage c.model c.input_tokens c.output_tokens
      c.research_level c.ts session_costs
    let rec' := runCalls rest r.2
    (r.1 :: rec'.1, rec'.2)

/-! ## Image processing (src/iris.py, class ImageProcessor)

Images are modelled by their observable attributes: pixel width, pixel height
and PIL mode string.  Network downloads, image decoding and local file saving
are oracles.  Raw downloaded bytes are an arbitrary type `β`. -/

/-- A PIL image, modelled by its pixel dimensions and mode. -/
structure Img where
  width : ℕ
  height : ℕ
  mode : String
deriving DecidableEq, Repr

/-- PIL `Image.convert('RGB')`: dimensions unchanged, mode becomes RGB. -/
def convertRGB (img : Img) : Img :=
  { img with mode := "RGB" }

/-- Modelled from the Pillow library: the `round_aspect` helper inside
`Image.thumbnail` — the nearer of floor and ceiling under `key` (floor on
ties), clamped to at least 1. -/
def round_aspect (number : ℚ) (key : ℤ → ℚ) : ℤ :=
  max (if key ⌊number⌋ ≤ key ⌈number⌉ then ⌊number⌋ else ⌈number⌉) 1

/-- Modelled from the Pillow library: `Image.thumbnail(size)` — a no-op when
the image already fits the bounding box, otherwise a rescale preserving aspect
ratio so that the result fits the box.  Float arithmetic is idealised as exact
rational arithmetic. -/
def thumbnail (img : Img) (size : ℕ × ℕ) : Img :=
  let x : ℤ := size.1
  let y : ℤ := size.2
  if (img.width : ℤ) ≤ x ∧ (img.height : ℤ) ≤ y then img
  else
    let aspect : ℚ := (img.width : ℚ) / (img.height : ℚ)
    if aspect ≤ (x : ℚ) / (y : ℚ) then
      let nw := round_aspect ((y : ℚ) * aspect) (fun n => |aspect - (n : ℚ) / (y : ℚ)|)
      { img with width := nw.toNat, height := y.toNat }
    else
      let nh := round_aspect ((x : ℚ) / aspect)
        (fun n => if n = 0 then 0 else |aspect - (x : ℚ) / (n : ℚ)|)
      { img with width := x.toNat, height := nh.toNat }

/-- Encoded image bytes: base64 of a JPEG encoding of an image at a given
quality.  The codec itself is external; only its provenance is tracked. -/
inductive ImageData
  | b64jpeg (img : Img) (quality : ℕ)
deriving DecidableEq, Repr

/-- The `grid_info` dict attached to composite payloads. -/
structure GridInfo where
  size : ℕ × ℕ
  images_count : ℕ
  total_attempted : ℕ
deriving DecidableEq, Repr

/-- The dict returned by the image-processing functions: media type, encoded
data, optional local path, optional grid info. -/
structure Payload where
  type : String
  data : ImageData
  local_path : Option String := none
  grid_info : Option GridInfo := none
deriving DecidableEq, Repr

/-- The download-with-retries loop of `ImageProcessor.process_image_url`
(`for attempt in range(3)`): the first of at most three attempts to succeed,
`none` when all three fail. -/
def downloadWithRetries {β : Type} (attempts : ℕ → Option β) : Option β :=
  match attempts 0 with
  | some r => some r
  | none =>
    match attempts 1 with
    | some r => some r
    | none => attempts 2

/-- `ImageProcessor.process_image_url`: download with retries, decode, resize
to fit `max_size` when it exceeds the box, convert to RGB when needed, save
locally when requested, and return a JPEG payload.  `attempts k` is the
outcome of the k-th download attempt, `decode` models `Image.open`, and
`saveFile` models `_save_image_locally` (which may itself fail to `none`). -/
def process_image_url {β : Type} (attempts : ℕ → Option β) (decode : β → Option Img)
    (saveFile : String → Option String) (lot_title : String)
    (max_size : ℕ × ℕ) (save_local : Bool) : Option Payload :=
  match downloadWithRetries attempts with
  | none => none
  | some image_data =>
    match decode image_data with
    | none => none
    | some image0 =>
      let image1 :=
        if max_size.1 < image0.width ∨ max_size.2 < image0.height then
          thumbnail image0 max_size
        else image0
      let image2 := if image1.mode ≠ "RGB" then convertRGB image1 else image1
      let local_path := if save_local ∧ lot_title ≠ "" then saveFile lot_title else none
      some { type := "image/jpeg", data := .b64jpeg image2 85, local_path := local_path }

/-- Zero-padded numbering `f"{i+1:02d}"` used for individual image titles. -/
def pad2 (n : ℕ) : String :=
  if n < 10 then "0" ++ toString n else toString n

/-- `ImageProcessor.process_multiple_images_individually`: process the first
`max_images` locators through `process_image_url`, collect payloads and local
paths, and return the first payload with the path list — or `(none, [])` when
no download succeeded. -/
def process_multiple_images_individually {β : Type} (attempts : String → ℕ → Option β)
    (decode : β → Option Img) (saveFile : String → Option String)
    (urls : List String) (lot_title : String) (max_images : ℕ) :
    Option Payload × List String :=
  let step := fun (acc : List Payload × List String) (iu : ℕ × String) =>
    let unique_title := lot_title ++ "_img" ++ pad2 (iu.1 + 1)
    match process_image_url (attempts iu.2) decode saveFile unique_title (1024, 1024) true with
    | some image_data =>
      (acc.1 ++ [image_data],
        match image_data.local_path with
        | some p => acc.2 ++ [p]
        | none => acc.2)
    | none => acc
  let acc := ((urls.take max_images).enum).foldl step ([], [])
  if acc.1.length = 0 then (none, [])
  else (acc.1.head?, acc.2)

/-- The per-locator download of `process_multiple_images_as_grid`: a single
`requests.get` (no retry loop), decode, convert to RGB; any failure yields
`none`, which is appended to the image list as a placeholder. -/
def gridDownloadOnce {β : Type} (attempts : String → ℕ → Option β)
    (decode : β → Option Img) (url : String) : Option Img :=
  match attempts url 0 with
  | none => none
  | some b =>
    match decode b with
    | none => none
    | some image => some (if image.mode ≠ "RGB" then convertRGB image else image)

/-- The download loop of `process_multiple_images_as_grid` over the first
`max_images` locators: one `Option Img` per locator, position preserved. -/
def gridResults {β : Type} (attempts : String → ℕ → Option β)
    (decode : β → Option Img) (urls : List String) (max_images : ℕ) :
    List (Option Img) :=
  (urls.take max_images).map (gridDownloadOnce attempts decode)

/-- The `successful_downloads` counter: number of non-placeholder entries. -/
def successfulDownloads (results : List (Option Img)) : ℕ :=
  (results.filterMap id).length

/-- The count-based grid layout selection of `process_multiple_images_as_grid`. -/
def gridSizeFor (successful_downloads : ℕ) : ℕ × ℕ :=
  if successful_downloads = 1 then (1, 1)
  else if successful_downloads ≤ 2 then (2, 1)
  else if successful_downloads ≤ 4 then (2, 2)
  else (3, 2)

/-- One `grid.paste` performed by `create_image_grid`: the position index in
the input list, the source image, the cell-resized image and its offsets. -/
structure Placement where
  index : ℕ
  source : Img
  resized : Img
  x_offset : ℕ
  y_offset : ℕ
deriving DecidableEq, Repr

/-- `ImageProcessor.create_image_grid`: a white RGB canvas of `output_size`
divided into `cols × rows` cells; the first `cols*rows` entries of `images`
are walked in order, `none` entries are skipped (their cell stays blank), and
each image is resized to fit its cell minus a 10-pixel margin and centered.
Returns the canvas and the list of pastes performed. -/
def create_image_grid (images : List (Option Img)) (grid_size : ℕ × ℕ)
    (output_size : ℕ × ℕ) : Img × List Placement :=
  let cols := grid_size.1
  let rows := grid_size.2
  let cell_width := output_size.1 / cols
  let cell_height := output_size.2 / rows
  let placements := (images.take (cols * rows)).enum.filterMap (fun p =>
    p.2.map (fun img =>
      let img_resized := thumbnail img (cell_width - 10, cell_height - 10)
      { index := p.1
        source := img
        resized := img_resized
        x_offset := (p.1 % cols) * cell_width + (cell_width - img_resized.width) / 2
        y_offset := (p.1 / cols) * cell_height + (cell_height - img_resized.height) / 2 }))
  (⟨output_size.1, output_size.2, "RGB"⟩, placements)

/-- `ImageProcessor.process_multiple_images_as_grid`: download the first
`max_images` locators (one attempt each), keep failures as `none`
placeholders, pick the grid layout from the success count alone, compose the
grid and return it as a JPEG payload with grid info — or `none` when no
download succeeded. -/
def process_multiple_images_as_grid {β : Type} (attempts : String → ℕ → Option β)
    (decode : β → Option Img) (saveFile : String → Option String)
    (urls : List String) (lot_title : String) (max_images : ℕ) : Option Payload :=
  let images := gridResults attempts decode urls max_images
  let successful_downloads := successfulDownloads images
  if successful_downloads = 0 then none
  else
    let grid_size := gridSizeFor successful_downloads
    let grid := create_image_grid images grid_size (1024, 1024)
    some { type := "image/jpeg"
           data := .b64jpeg grid.1 85
           local_path := saveFile (lot_title ++ "_grid")
           grid_info := some ⟨grid_size, successful_downloads, min urls.length max_images⟩ }

/-- Which analysis path `EnhancedAIResearcher.research_item_with_grid` takes:
text-only analysis, or vision analysis of the supplied payload. -/
inductive ResearchOutcome
  | textOnly
  | gridAnalysis (payload : Payload)
deriving DecidableEq, Repr

/-- The dispatch logic of `research_item_with_grid` (lines 308-318 of
src/iris.py): `basic` level or a missing payload falls back to text-only
analysis; otherwise the payload is analysed. -/
def research_item_with_grid (grid_image_data : Option Payload)
    (research_level : ResearchLevel) : ResearchOutcome :=
  if research_level = ResearchLevel.basic then .textOnly
  else
    match grid_image_data with
    | none => .textOnly
    | some d => .gridAnalysis d

/-! ## Research-response parsing (src/iris.py, EnhancedAIResearcher) -/

/-- A decoded JSON value, as far as the parser inspects it: a string, an array
of strings (storytelling hooks), or some other opaque value. -/
inductive JVal
  | str (s : String)
  | arr (xs : List String)
  | other (n : ℕ)
deriving DecidableEq, Repr

/-- A decoded JSON object: association list of keys to values. -/
abbrev JObj : Type := List (String × JVal)

/-- Python `dict.get(key, default)` on a decoded object. -/
def jget (data : JObj) (key : String) (default : JVal) : JVal :=
  match data.find? (fun p => p.1 == key) with
  | some p => p.2
  | none => default

/-- The `ResearchContext` dataclass of src/iris.py.  Fields hold whatever the
decoded JSON supplied (Python does not enforce the annotations). -/
structure ResearchContext where
  historische_significantie : JVal
  culturele_context : JVal
  vakmanschap_details : JVal
  marktpotentieel : JVal
  visuele_analyse : JVal
  storytelling_hooks : JVal
  lifestyle_scenario : JVal
deriving DecidableEq, Repr

/-- `EnhancedAIResearcher._create_fallback_context`. -/
def create_fallback_context : ResearchContext :=
  { historische_significantie := .str "N/A"
    culturele_context := .str "N/A"
    vakmanschap_details := .str "N/A"
    marktpotentieel := .str "N/A"
    visuele_analyse := .str "Analyse mislukt."
    storytelling_hooks := .arr []
    lifestyle_scenario := .str "N/A" }

/-- The opening-brace character. -/
def lbrace : Char := Char.ofNat 123

/-- The closing-brace character. -/
def rbrace : Char := Char.ofNat 125

/-- The extraction performed by `re.search` with the DOTALL pattern of an
opening brace, a greedy any-sequence, and a closing brace: the match, when one
exists, runs from the first opening brace to the last closing brace of the
whole text. -/
def extractJsonSpan (cs : List Char) : Option (List Char) :=
  match cs.indexOf? lbrace, cs.reverse.indexOf? rbrace with
  | some i, some k =>
    let j := cs.length - 1 - k
    if i < j then some ((cs.drop i).take (j - i + 1)) else none
  | _, _ => none

/-- Modelled from the spec's words, for comparison with `extractJsonSpan`:
"the first brace-delimited structured block" — the substring running from the
first opening brace to the first closing brace after it. -/
def firstBraceBlock (cs : List Char) : Option (List Char) :=
  match cs.indexOf? lbrace with
  | none => none
  | some i =>
    match (cs.drop (i + 1)).indexOf? rbrace with
    | none => none
    | some d => some ((cs.drop i).take (d + 2))

/-- `EnhancedAIResearcher._parse_research_response`: extract the regex match
from the reply (a failed match raises AttributeError, caught below), decode it
with `json.loads` (modelled by the `jsonLoads` oracle; a decode failure raises
JSONDecodeError, caught below), and build a `ResearchContext` with per-field
defaults; on either exception return the fallback context. -/
def parse_research_response (jsonLoads : String → Option JObj)
    (response_text : String) : ResearchContext :=
  match extractJsonSpan response_text.toList with
  | none => create_fallback_context
  | some span =>
    match jsonLoads (String.mk span) with
    | none => create_fallback_context
    | some data =>
      { historische_significantie := jget data "historische_significantie" (.str "N/A")
        culturele_context := jget data "culturele_context" (.str "N/A")
        vakmanschap_details := jget data "vakmanschap_details" (.str "N/A")
        marktpotentieel := jget data "marktpotentieel" (.str "N/A")
        visuele_analyse := jget data "visuele_analyse" (.str "Geen visuele analyse beschikbaar")
        storytelling_hooks := jget data "storytelling_hooks" (.arr [])
        lifestyle_scenario := jget data "lifestyle_scenario" (.str "N/A") }

/-! ## Shared concrete oracles for witnesses and counterexamples -/

/-- A download oracle whose every attempt succeeds. -/
def okDownload : String → ℕ → Option ℕ := fun _ _ => some 0

/-- A download oracle whose every attempt fails. -/
def failDownload : String → ℕ → Option ℕ := fun _ _ => none

/-- A download oracle that fails the first attempt and succeeds on the first
retry. -/
def retrySecond : String → ℕ → Option ℕ := fun _ k => if k = 1 then some 0 else none

/-- A download oracle that succeeds only for the locator "b". -/
def onlyBDownload : String → ℕ → Option ℕ := fun u _ => if u = "b" then some 0 else none

/-- A decode oracle producing a 100 by 100 RGB image. -/
def okDecode100 : ℕ → Option Img := fun _ => some ⟨100, 100, "RGB"⟩

/-- A decode oracle producing a 2000 by 1500 RGB image. -/
def okDecodeBig : ℕ → Option Img := fun _ => some ⟨2000, 1500, "RGB"⟩

/-- A file-saving oracle that always fails (saving is best-effort). -/
def noSave : String → Option String := fun _ => none


/-! ## Claims C1, C3, C4 -/

/-- C1: for every model in the pricing table and all non-negative integer token
counts, the cost estimator (both `estimate_cost` with custom token counts and
`track_actual_usage` on the model's identifier string) returns exactly
inputUnits/1,000,000 times the model's input rate plus outputUnits/1,000,000
times the model's output rate; consequently it is linear in each argument
independently and equals 0 when both counts are 0. -/
theorem estimate_cost_linear (model : ModelType) (rl : ResearchLevel)
    (rls ts : String) (s : List SessionEntry) (i o i' o' : ℕ) :
    (estimate_cost model rl (some (i, o))).total_cost =
      (i : ℚ) / 1000000 * (PRICING model).input_cost
        + (o : ℚ) / 1000000 * (PRICING model).output_cost
    ∧ (track_actual_usage model.value i o rls ts s).1.total_cost =
      (i : ℚ) / 1000000 * (PRICING model).input_cost
        + (o : ℚ) / 1000000 * (PRICING model).output_cost
    ∧ (estimate_cost model rl (some (i + i', o))).total_cost =
      (estimate_cost model rl (some (i, o))).total_cost
        + (estimate_cost model rl (some (i', 0))).total_cost
    ∧ (estimate_cost model rl (some (i, o + o'))).total_cost =
      (estimate_cost model rl (some (i, o))).total_cost
        + (estimate_cost model rl (some (0, o'))).total_cost
    ∧ (estimate_cost model rl (some (0, 0))).total_cost = 0 := by
  have hfind : findModelType model.value = some model := by
    cases model <;> rfl
  refine ⟨rfl, ?_, ?_, ?_, ?_⟩
  · simp only [track_actual_usage, hfind, Option.getD_some]
  · simp only [estimate_cost, Option.getD_some]
    push_cast
    ring
  · simp only [estimate_cost, Option.getD_some]
    push_cast
    ring
  · simp [estimate_cost]

/-- C3: after any sequence of `track_actual_usage` calls starting from the
empty session log, the session total equals the exact sum of the returned
costs, and in every state the session total equals the sum of the costs stored
in the session log. -/
theorem session_total_eq_sum_of_returned (calls : List UsageCall) :
    get_session_total (runCalls calls []).2 =
      ((runCalls calls []).1.map (fun c => c.total_cost)).sum
    ∧ ∀ s : List SessionEntry,
      get_session_total s = (s.map (fun entry => entry.cost.total_cost)).sum := by
  constructor
  · have key : ∀ (cs : List UsageCall) (s : List SessionEntry),
        get_session_total (runCalls cs s).2 =
          get_session_total s + ((runCalls cs s).1.map (fun c => c.total_cost)).sum := by
      intro cs
      induction cs with
      | nil => intro s; simp [runCalls]
      | cons c rest ih =>
        intro s
        simp only [runCalls, List.map_cons, List.sum_cons]
        rw [ih]
        simp [track_actual_usage, get_session_total]
        ring
    have := key calls []
    simpa [get_session_total] using this
  · intro s
    rfl

/-- C4: for every model identifier string not present in the pricing table,
usage tracking does not raise (it is a total function) and falls back to the
default pricing entry (Sonnet); in particular for model "unknown-model-x" with
1,000,000 input tokens and 0 output tokens the computed cost equals the default
entry's input rate exactly. -/
theorem track_unknown_model_default (model rls ts : String)
    (s : List SessionEntry) (i o : ℕ) (h : findModelType model = none) :
    (track_actual_usage model i o rls ts s).1.total_cost =
      (i : ℚ) / 1000000 * (PRICING ModelType.claude35Sonnet).input_cost
        + (o : ℚ) / 1000000 * (PRICING ModelType.claude35Sonnet).output_cost
    ∧ (track_actual_usage "unknown-model-x" 1000000 0 rls ts s).1.total_cost =
      (PRICING ModelType.claude35Sonnet).input_cost := by
  constructor
  · simp only [track_actual_usage, h, Option.getD_none]
  · have hu : findModelType "unknown-model-x" = none := by decide
    simp only [track_actual_usage, hu, Option.getD_none, PRICING]
    norm_num

/-- Witness for C4 at the concrete unknown model string of the spec's example
scenario. -/
theorem track_unknown_model_default_witness :
    (track_actual_usage "unknown-model-x" 1000000 0 "basic" "t" []).1.total_cost =
      (PRICING ModelType.claude35Sonnet).input_cost :=
  (track_unknown_model_default "unknown-model-x" "basic" "t" [] 1000000 0
    (by decide)).2

/-! ## Claim C2 -/

/-- C2 counterexample: with five reachable locators and the `max_images=4`
used at every call site of `process_multiple_images_as_grid`, only four
images are downloaded, so the composite uses a 2 by 2 layout, not the 3 by 2
layout the claim asserts. -/
theorem grid_five_reachable_uses_2x2 :
    (process_multiple_images_as_grid okDownload okDecode100 noSave
        ["u1", "u2", "u3", "u4", "u5"] "lot" 4).map (fun p => p.grid_info.map GridInfo.size)
      = some (some (2, 2))
    ∧ (process_multiple_images_as_grid okDownload okDecode100 noSave
        ["u1", "u2", "u3", "u4", "u5"] "lot" 4).map (fun p => p.grid_info.map GridInfo.size)
      ≠ some (some (3, 2)) := by
  refine ⟨by decide, by decide⟩

/-- C2 amended: the composite grid layout is chosen purely by the count of
successfully downloaded images — 1 gives 1x1, 2 gives 2x1, 3 or 4 give 2x2
and 5 or more give 3x2 — and with exactly 4 reachable locators the composite
uses a 2x2 layout and with 1 a 1x1 layout; but since every call site passes
`max_images = 4`, with 5 reachable locators only 4 are downloaded and the
composite uses a 2x2 layout (a 3x2 layout would require `max_images` above 4). -/
theorem grid_layout_by_success_count {β : Type} (attempts : String → ℕ → Option β)
    (decode : β → Option Img) (saveFile : String → Option String)
    (urls : List String) (lot_title : String) (max_images s : ℕ) :
    (process_multiple_images_as_grid attempts decode saveFile urls lot_title max_images).map
        (fun p => p.grid_info) =
      (if successfulDownloads (gridResults attempts decode urls max_images) = 0 then none
       else some (some
         ⟨gridSizeFor (successfulDownloads (gridResults attempts decode urls max_images)),
          successfulDownloads (gridResults attempts decode urls max_images),
          min urls.length max_images⟩))
    ∧ gridSizeFor 1 = (1, 1) ∧ gridSizeFor 2 = (2, 1)
    ∧ gridSizeFor 3 = (2, 2) ∧ gridSizeFor 4 = (2, 2)
    ∧ gridSizeFor (s + 5) = (3, 2)
    ∧ (process_multiple_images_as_grid okDownload okDecode100 noSave ["u1"] "lot" 4).map
        (fun p => p.grid_info.map GridInfo.size) = some (some (1, 1))
    ∧ (process_multiple_images_as_grid okDownload okDecode100 noSave
        ["u1", "u2", "u3", "u4"] "lot" 4).map (fun p => p.grid_info.map GridInfo.size)
      = some (some (2, 2))
    ∧ (process_multiple_images_as_grid okDownload okDecode100 noSave
        ["u1", "u2", "u3", "u4", "u5"] "lot" 4).map (fun p => p.grid_info.map GridInfo.size)
      = some (some (2, 2)) := by
  refine ⟨?_, rfl, rfl, rfl, rfl, ?_, by decide, by decide, by decide⟩
  · simp only [process_multiple_images_as_grid]
    split
    · rfl
    · rfl
  · have h1 : ¬(s + 5 = 1) := by omega
    have h2 : ¬(s + 5 ≤ 2) := by omega
    have h3 : ¬(s + 5 ≤ 4) := by omega
    simp [gridSizeFor, h1, h2, h3]

/-! ## Claim C5 -/

/-- Helper: when every download attempt for a locator fails,
`process_image_url` yields no payload. -/
theorem process_image_url_none_of_all_fail {β : Type} (attempts : ℕ → Option β)
    (decode : β → Option Img) (saveFile : String → Option String)
    (lot_title : String) (max_size : ℕ × ℕ) (save_local : Bool)
    (h : ∀ k, attempts k = none) :
    process_image_url attempts decode saveFile lot_title max_size save_local = none := by
  simp only [process_image_url, downloadWithRetries, h 0, h 1, h 2]

/-- C5: at a non-basic research level, if every download attempt in the
requested batch fails, the aggregator returns no payload and an empty
persisted-path list, and the research step falls back to text-only analysis;
the same holds for an empty locator list. -/
theorem all_downloads_fail_no_payload {β : Type} (attempts : String → ℕ → Option β)
    (decode : β → Option Img) (saveFile : String → Option String)
    (urls : List String) (lot_title : String) (max_images : ℕ) (level : ResearchLevel)
    (hfail : ∀ u ∈ urls.take max_images, ∀ k, attempts u k = none)
    (hlevel : level ≠ ResearchLevel.basic) :
    process_multiple_images_individually attempts decode saveFile urls lot_title max_images
      = (none, [])
    ∧ research_item_with_grid
        (process_multiple_images_individually attempts decode saveFile urls lot_title
          max_images).1 level = .textOnly
    ∧ process_multiple_images_as_grid attempts decode saveFile urls lot_title max_images
      = none
    ∧ process_multiple_images_individually attempts decode saveFile ([] : List String)
        lot_title max_images = (none, []) := by
  have hmain : process_multiple_images_individually attempts decode saveFile urls lot_title
      max_images = (none, []) := by
    simp only [process_multiple_images_individually]
    have hfold : ∀ (l : List (ℕ × String)) (acc : List Payload × List String),
        (∀ iu ∈ l, ∀ k, attempts iu.2 k = none) →
        l.foldl (fun acc iu =>
          match process_image_url (attempts iu.2) decode saveFile
              (lot_title ++ "_img" ++ pad2 (iu.1 + 1)) (1024, 1024) true with
          | some image_data =>
            (acc.1 ++ [image_data],
              match image_data.local_path with
              | some p => acc.2 ++ [p]
              | none => acc.2)
          | none => acc) acc = acc := by
      intro l
      induction l with
      | nil => intro acc _; rfl
      | cons iu rest ih =>
        intro acc hall
        have hiu : process_image_url (attempts iu.2) decode saveFile
            (lot_title ++ "_img" ++ pad2 (iu.1 + 1)) (1024, 1024) true = none :=
          process_image_url_none_of_all_fail _ _ _ _ _ _ (hall iu (by simp))
        simp only [List.foldl_cons, hiu]
        exact ih acc (fun x hx => hall x (by simp [hx]))
    have henum : ∀ iu ∈ (urls.take max_images).enum, ∀ k, attempts iu.2 k = none := by
      intro iu hiu k
      have : iu.2 ∈ urls.take max_images := by
        have := List.mem_enum_iff_get?.mp hiu
        exact List.get?_mem this
      exact hfail iu.2 this k
    rw [hfold _ _ henum]
    rfl
  have hgrid : process_multiple_images_as_grid attempts decode saveFile urls lot_title
      max_images = none := by
    have hall : ∀ o ∈ gridResults attempts decode urls max_images, o = none := by
      intro o ho
      unfold gridResults at ho
      rw [List.mem_map] at ho
      obtain ⟨u, hu, rfl⟩ := ho
      unfold gridDownloadOnce
      rw [hfail u hu 0]
    have hzero : successfulDownloads (gridResults attempts decode urls max_images) = 0 := by
      unfold successfulDownloads
      rw [List.length_eq_zero, List.filterMap_eq_nil]
      intro o ho
      rw [hall o ho]
      rfl
    simp only [process_multiple_images_as_grid, hzero]
    rfl
  refine ⟨hmain, ?_, hgrid, by simp [process_multiple_images_individually]⟩
  rw [hmain]
  simp only [research_item_with_grid]
  split
  · rfl
  · rfl

/-- Witness for C5: two locators whose downloads all fail at level premium. -/
theorem all_downloads_fail_no_payload_witness :
    process_multiple_images_individually failDownload okDecode100 noSave ["a", "b"] "lot" 4
      = (none, [])
    ∧ research_item_with_grid
        (process_multiple_images_individually failDownload okDecode100 noSave ["a", "b"]
          "lot" 4).1 ResearchLevel.premium = .textOnly
    ∧ process_multiple_images_as_grid failDownload okDecode100 noSave ["a", "b"] "lot" 4
      = none
    ∧ process_multiple_images_individually failDownload okDecode100 noSave [] "lot" 4
      = (none, []) :=
  all_downloads_fail_no_payload failDownload okDecode100 noSave ["a", "b"] "lot" 4
    ResearchLevel.premium (fun _ _ _ => rfl) (by decide)

/-! ## Claim C6 -/

/-- C6 counterexample: a locator whose first download attempt fails but whose
first retry would succeed.  `process_image_url` (used for standard, premium
and individual persistence) retries and produces a payload, but the download
loop of the comprehensive grid path issues a single attempt, abandons the
locator, and — it being the only locator — returns no payload at all.  So
downloads are not retried at every research level. -/
theorem grid_path_does_not_retry :
    (process_image_url (retrySecond "u") okDecode100 noSave "lot" (1024, 1024) true).isSome
      = true
    ∧ process_multiple_images_as_grid retrySecond okDecode100 noSave ["u"] "lot" 4 = none := by
  refine ⟨by decide, by decide⟩

/-- C6 amended: a failed download attempt in `process_image_url` (the
standard-level primary image, the premium path and the individual-persistence
path) is retried up to 2 times — the locator is abandoned exactly when all 3
attempts fail, and the first retry's outcome is used when the first attempt
fails; but in the grid-composition download loop of the comprehensive level
each locator gets exactly one attempt and is abandoned on its first failure. -/
theorem download_retry_policy {β : Type} (attempts : ℕ → Option β)
    (atts : String → ℕ → Option β) (decode : β → Option Img) (url : String) :
    (downloadWithRetries attempts = none ↔
      attempts 0 = none ∧ attempts 1 = none ∧ attempts 2 = none)
    ∧ (attempts 0 = none →
        downloadWithRetries attempts =
          (match attempts 1 with
           | some r => some r
           | none => attempts 2))
    ∧ (atts url 0 = none → gridDownloadOnce atts decode url = none) := by
  refine ⟨?_, ?_, ?_⟩
  · cases h0 : attempts 0 <;> cases h1 : attempts 1 <;> cases h2 : attempts 2 <;>
      simp [downloadWithRetries, h0, h1, h2]
  · intro h0
    unfold downloadWithRetries
    rw [h0]
  · intro h0
    unfold gridDownloadOnce
    rw [h0]

/-- Witness for C6's amended statement: all attempts failing abandons the
locator in `process_image_url`, and a first-attempt failure alone abandons it
in the grid path. -/
theorem download_retry_policy_witness :
    downloadWithRetries (failDownload "u") = none
    ∧ gridDownloadOnce failDownload okDecode100 "u" = none :=
  ⟨(download_retry_policy (failDownload "u") failDownload okDecode100 "u").1.mpr
      ⟨rfl, rfl, rfl⟩,
    (download_retry_policy (failDownload "u") failDownload okDecode100 "u").2.2 rfl⟩

/-! ## Claim C7 -/

/-- The reply text of the C7 counterexample: two brace-delimited JSON objects
separated by other text. -/
def twoBlockText : String := "\x7b\"visuele_analyse\": \"X\"\x7d en \x7b\"y\": \"Z\"\x7d"

/-- The first brace-delimited block of `twoBlockText`, which is valid JSON. -/
def firstBlockText : String := "\x7b\"visuele_analyse\": \"X\"\x7d"

/-- A `json.loads` oracle consistent with the two texts above: the first block
decodes to an object, the greedy whole-text span is malformed. -/
def demoLoads : String → Option JObj :=
  fun s => if s = firstBlockText then some [("visuele_analyse", .str "X")] else none

/-- C7 counterexample: on a reply holding two brace-delimited blocks the
parser does not extract the first block (which is well-formed and would give
a visual-analysis field of "X"); it extracts the greedy span from the first
opening brace to the last closing brace, whose decode fails, and so returns the
all-sentinel fallback context. -/
theorem parser_not_first_block :
    firstBraceBlock twoBlockText.toList = some firstBlockText.toList
    ∧ demoLoads firstBlockText = some [("visuele_analyse", JVal.str "X")]
    ∧ extractJsonSpan twoBlockText.toList = some twoBlockText.toList
    ∧ parse_research_response demoLoads twoBlockText = create_fallback_context
    ∧ create_fallback_context.visuele_analyse ≠ JVal.str "X" := by
  refine ⟨by decide, by decide, by decide, by decide, by decide⟩

/-- C7 amended: the parser extracts the greedy regex span running from the
first opening brace to the last closing brace of the reply; when no such span
exists, or the extracted span fails to decode as JSON, every field of the
result is set to its sentinel fallback value and no parse error propagates —
the parser is a total function and never aborts the pipeline. -/
theorem parse_fallback_on_failure (jsonLoads : String → Option JObj) (text : String) :
    (extractJsonSpan text.toList = none →
      parse_research_response jsonLoads text = create_fallback_context)
    ∧ (∀ span, extractJsonSpan text.toList = some span →
        jsonLoads (String.mk span) = none →
        parse_research_response jsonLoads text = create_fallback_context)
    ∧ (∀ (cs : List Char) (i k : ℕ), cs.indexOf? lbrace = some i →
        cs.reverse.indexOf? rbrace = some k → i < cs.length - 1 - k →
        extractJsonSpan cs = some ((cs.drop i).take (cs.length - 1 - k - i + 1))) := by
  refine ⟨?_, ?_, ?_⟩
  · intro h
    simp only [parse_research_response, h]
  · intro span hspan hload
    simp only [parse_research_response, hspan, hload]
  · intro cs i k hi hk hlt
    simp only [extractJsonSpan, hi, hk]
    rw [if_pos hlt]

/-- Witness for C7's amended statement: a brace-free reply and a
malformed-span reply both yield the fallback context. -/
theorem parse_fallback_on_failure_witness :
    parse_research_response demoLoads "geen json hier" = create_fallback_context
    ∧ parse_research_response demoLoads twoBlockText = create_fallback_context :=
  ⟨(parse_fallback_on_failure demoLoads "geen json hier").1 (by decide),
    (parse_fallback_on_failure demoLoads twoBlockText).2.1 twoBlockText.toList
      (by decide) (by decide)⟩

/-! ## Claim C9 -/

/-- Helper: the conditional RGB conversion always leaves an RGB image. -/
theorem mode_after_rgb_conversion (img : Img) :
    (if img.mode ≠ "RGB" then convertRGB img else img).mode = "RGB" := by
  by_cases h : img.mode = "RGB"
  · simp [h]
  · simp [h, convertRGB]

/-- C9: every payload returned by the aggregator — from single-image
processing or from grid composition — declares media type "image/jpeg" and
carries base64-encoded JPEG bytes of an RGB image, whatever the source
image's original format or mode. -/
theorem payload_always_jpeg {β : Type} (attempts : ℕ → Option β)
    (atts : String → ℕ → Option β) (decode : β → Option Img)
    (saveFile : String → Option String) (urls : List String) (lot_title : String)
    (max_size : ℕ × ℕ) (save_local : Bool) (max_images : ℕ) (p q : Payload) :
    (process_image_url attempts decode saveFile lot_title max_size save_local = some p →
      p.type = "image/jpeg" ∧ ∃ img, p.data = ImageData.b64jpeg img 85 ∧ img.mode = "RGB")
    ∧ (process_multiple_images_as_grid atts decode saveFile urls lot_title max_images
        = some q →
      q.type = "image/jpeg" ∧ ∃ img, q.data = ImageData.b64jpeg img 85 ∧ img.mode = "RGB") := by
  constructor
  · intro h
    cases hdl : downloadWithRetries attempts with
    | none =>
      simp only [process_image_url, hdl] at h
      exact Option.noConfusion h
    | some b =>
      cases hdec : decode b with
      | none =>
        simp only [process_image_url, hdl, hdec] at h
        exact Option.noConfusion h
      | some image0 =>
        simp only [process_image_url, hdl, hdec, Option.some.injEq] at h
        subst h
        exact ⟨rfl, _, rfl, mode_after_rgb_conversion _⟩
  · intro h
    simp only [process_multiple_images_as_grid] at h
    split at h
    · exact Option.noConfusion h
    · simp only [Option.some.injEq] at h
      subst h
      exact ⟨rfl, ⟨1024, 1024, "RGB"⟩, rfl, rfl⟩

/-- Witness for C9: a concrete single-image run and a concrete grid run, both
yielding a JPEG payload of an RGB image. -/
theorem payload_always_jpeg_witness :
    ((Payload.mk "image/jpeg" (ImageData.b64jpeg ⟨100, 100, "RGB"⟩ 85) none none).type
        = "image/jpeg"
      ∧ ∃ img, (Payload.mk "image/jpeg" (ImageData.b64jpeg ⟨100, 100, "RGB"⟩ 85)
          none none).data = ImageData.b64jpeg img 85 ∧ img.mode = "RGB")
    ∧ ((Payload.mk "image/jpeg" (ImageData.b64jpeg ⟨1024, 1024, "RGB"⟩ 85) none
          (some ⟨(1, 1), 1, 1⟩)).type = "image/jpeg"
      ∧ ∃ img, (Payload.mk "image/jpeg" (ImageData.b64jpeg ⟨1024, 1024, "RGB"⟩ 85) none
          (some ⟨(1, 1), 1, 1⟩)).data = ImageData.b64jpeg img 85 ∧ img.mode = "RGB") :=
  ⟨(payload_always_jpeg (okDownload "u") okDownload okDecode100 noSave ["u"] "lot"
      (1024, 1024) true 4 (Payload.mk "image/jpeg"
        (ImageData.b64jpeg ⟨100, 100, "RGB"⟩ 85) none none)
      (Payload.mk "image/jpeg" (ImageData.b64jpeg ⟨1024, 1024, "RGB"⟩ 85) none
        (some ⟨(1, 1), 1, 1⟩))).1 (by decide),
    (payload_always_jpeg (okDownload "u") okDownload okDecode100 noSave ["u"] "lot"
      (1024, 1024) true 4 (Payload.mk "image/jpeg"
        (ImageData.b64jpeg ⟨100, 100, "RGB"⟩ 85) none none)
      (Payload.mk "image/jpeg" (ImageData.b64jpeg ⟨1024, 1024, "RGB"⟩ 85) none
        (some ⟨(1, 1), 1, 1⟩))).2 (by decide)⟩

/-! ## Claim C10 -/

/-- Helper: the number of pastes performed over an indexed option list equals
the number of present images in it, whatever the starting index. -/
theorem length_filterMap_enumFrom (g : ℕ → Img → Placement) :
    ∀ (l : List (Option Img)) (n : ℕ),
      ((l.enumFrom n).filterMap (fun p => p.2.map (g p.1))).length
        = (l.filterMap id).length := by
  intro l
  induction l with
  | nil => intro n; rfl
  | cons o t ih =>
    intro n
    cases o with
    | none => simpa [List.enumFrom, List.filterMap_cons] using ih (n + 1)
    | some a => simpa [List.enumFrom, List.filterMap_cons] using ih (n + 1)

/-- C10: in grid composition a failed download keeps its position as a `none`
placeholder while the layout is chosen from the success count alone; every
paste lands at a position index below the grid capacity, so a successfully
downloaded image whose position index is at or beyond cols times rows is
omitted from the composite, and the composite then has fewer filled cells
than there were successful downloads. -/
theorem grid_omits_success_beyond_capacity {β : Type} (images : List (Option Img))
    (grid_size output_size : ℕ × ℕ) (i : ℕ) (img : Img)
    (atts : String → ℕ → Option β) (decode : β → Option Img)
    (urls : List String) (max_images j : ℕ) (u : String) :
    (∀ pl ∈ (create_image_grid images grid_size output_size).2,
      pl.index < grid_size.1 * grid_size.2)
    ∧ (images.get? i = some (some img) → grid_size.1 * grid_size.2 ≤ i →
        ∀ pl ∈ (create_image_grid images grid_size output_size).2, pl.index ≠ i)
    ∧ (images.get? i = some (some img) → grid_size.1 * grid_size.2 ≤ i →
        ((create_image_grid images grid_size output_size).2).length
          < successfulDownloads images)
    ∧ ((urls.take max_images).get? j = some u → atts u 0 = none →
        (gridResults atts decode urls max_images).get? j = some none) := by
  have hidx : ∀ pl ∈ (create_image_grid images grid_size output_size).2,
      pl.index < grid_size.1 * grid_size.2 := by
    intro pl hpl
    simp only [create_image_grid, List.mem_filterMap] at hpl
    obtain ⟨⟨k, o⟩, hmem, heq⟩ := hpl
    rw [Option.map_eq_some'] at heq
    obtain ⟨a, ho, ha⟩ := heq
    have hk : (images.take (grid_size.1 * grid_size.2)).get? k = some o :=
      List.mem_enum_iff_get?.mp hmem
    have hklt : k < (images.take (grid_size.1 * grid_size.2)).length :=
      List.get?_eq_some.mp hk |>.1
    have hple : pl.index = k := by rw [← ha]
    rw [hple]
    exact lt_of_lt_of_le hklt (List.length_take_le _ _)
  refine ⟨hidx, ?_, ?_, ?_⟩
  · intro _ hcap pl hpl
    exact Nat.ne_of_lt (lt_of_lt_of_le (hidx pl hpl) hcap)
  · intro hget hcap
    have hlen : ((create_image_grid images grid_size output_size).2).length
        = ((images.take (grid_size.1 * grid_size.2)).filterMap id).length := by
      simp only [create_image_grid]
      exact length_filterMap_enumFrom
        (fun k img0 =>
          { index := k
            source := img0
            resized := thumbnail img0
              (output_size.1 / grid_size.1 - 10, output_size.2 / grid_size.2 - 10)
            x_offset := (k % grid_size.1) * (output_size.1 / grid_size.1)
              + ((output_size.1 / grid_size.1)
                - (thumbnail img0 (output_size.1 / grid_size.1 - 10,
                    output_size.2 / grid_size.2 - 10)).width) / 2
            y_offset := (k / grid_size.1) * (output_size.2 / grid_size.2)
              + ((output_size.2 / grid_size.2)
                - (thumbnail img0 (output_size.1 / grid_size.1 - 10,
                    output_size.2 / grid_size.2 - 10)).height) / 2 })
        (images.take (grid_size.1 * grid_size.2)) 0
    rw [hlen]
    have hsplit : successfulDownloads images
        = ((images.take (grid_size.1 * grid_size.2)).filterMap id).length
          + ((images.drop (grid_size.1 * grid_size.2)).filterMap id).length := by
      unfold successfulDownloads
      conv_lhs => rw [← List.take_append_drop (grid_size.1 * grid_size.2) images]
      rw [List.filterMap_append, List.length_append]
    have hdrop : (images.drop (grid_size.1 * grid_size.2)).get?
        (i - grid_size.1 * grid_size.2) = some (some img) := by
      rw [List.get?_drop]
      rwa [Nat.add_sub_cancel' hcap]
    have hmem : some img ∈ images.drop (grid_size.1 * grid_size.2) :=
      List.get?_mem hdrop
    have hone : 0 < ((images.drop (grid_size.1 * grid_size.2)).filterMap id).length :=
      List.length_pos_of_mem (List.mem_filterMap.mpr ⟨some img, hmem, rfl⟩)
    omega
  · intro hget h0
    unfold gridResults
    rw [List.get?_map, hget]
    simp only [Option.map_some']
    unfold gridDownloadOnce
    rw [h0]

/-- Witness for C10: locator "a" fails, locator "b" succeeds; the single
success sits at index 1, the 1x1 grid has capacity 1, so the composite is
empty although one download succeeded; and the failed locator keeps its
position as a `none` placeholder. -/
theorem grid_omits_success_beyond_capacity_witness :
    ((create_image_grid [none, some (Img.mk 100 100 "RGB")] (1, 1) (1024, 1024)).2).length
      < successfulDownloads [none, some (Img.mk 100 100 "RGB")]
    ∧ (gridResults onlyBDownload okDecode100 ["a", "b"] 4).get? 0 = some none :=
  ⟨(grid_omits_success_beyond_capacity [none, some (Img.mk 100 100 "RGB")] (1, 1)
      (1024, 1024) 1 (Img.mk 100 100 "RGB") onlyBDownload okDecode100 ["a", "b"] 4 0
      "a").2.2.1 (by decide) (by decide),
    (grid_omits_success_beyond_capacity [none, some (Img.mk 100 100 "RGB")] (1, 1)
      (1024, 1024) 1 (Img.mk 100 100 "RGB") onlyBDownload okDecode100 ["a", "b"] 4 0
      "a").2.2.2 (by decide) (by decide)⟩

/-! ## Claim C8 -/

/-- Helper: `round_aspect` never exceeds an integer bound at least 1 that
dominates its input. -/
theorem round_aspect_le (number : ℚ) (key : ℤ → ℚ) (m : ℤ)
    (hm : 1 ≤ m) (h : number ≤ (m : ℚ)) : round_aspect number key ≤ m := by
  unfold round_aspect
  have hc : ⌈number⌉ ≤ m := Int.ceil_le.mpr h
  have hf : ⌊number⌋ ≤ m := le_trans (Int.floor_le_ceil number) hc
  exact max_le (by split <;> assumption) hm

/-- Helper: the modelled PIL `thumbnail` never enlarges either dimension of a
positive-size image when the bounding box is positive. -/
theorem thumbnail_le (img : Img) (size : ℕ × ℕ) (hw : 1 ≤ img.width)
    (hh : 1 ≤ img.height) (hx : 1 ≤ size.1) (hy : 1 ≤ size.2) :
    (thumbnail img size).width ≤ img.width
      ∧ (thumbnail img size).height ≤ img.height := by
  have hw0 : (0 : ℚ) < (img.width : ℚ) := by exact_mod_cast hw
  have hh0 : (0 : ℚ) < (img.height : ℚ) := by exact_mod_cast hh
  have hx0 : (0 : ℚ) < (size.1 : ℚ) := by exact_mod_cast hx
  have hy0 : (0 : ℚ) < (size.2 : ℚ) := by exact_mod_cast hy
  simp only [thumbnail]
  split
  · exact ⟨le_refl _, le_refl _⟩
  · rename_i hfit
    split
    · rename_i hA
      -- landscape box: height clamps to the box height, width follows aspect
      have hyh : size.2 < img.height := by
        by_contra hcon
        push_neg at hcon
        apply hfit
        have hcross : (img.width : ℚ) * (size.2 : ℚ) ≤ (size.1 : ℚ) * (img.height : ℚ) := by
          rw [div_le_div_iff hh0 (by push_cast; exact hy0)] at hA
          push_cast at hA ⊢
          linarith
        have hcrossn : img.width * size.2 ≤ size.1 * img.height := by exact_mod_cast hcross
        constructor
        · have h1 : img.width * img.height ≤ img.width * size.2 :=
            Nat.mul_le_mul_left _ hcon
          have h2 : img.width * img.height ≤ size.1 * img.height := le_trans h1 hcrossn
          have h3 : img.width ≤ size.1 :=
            Nat.le_of_mul_le_mul_right h2 (Nat.lt_of_lt_of_le Nat.zero_lt_one hh)
          exact_mod_cast h3
        · exact_mod_cast hcon
      constructor
      · show (round_aspect _ _).toNat ≤ img.width
        rw [Int.toNat_le]
        apply round_aspect_le _ _ _ (by exact_mod_cast hw)
        push_cast
        rw [mul_div_assoc', div_le_iff hh0]
        have : (size.2 : ℚ) ≤ (img.height : ℚ) := by exact_mod_cast le_of_lt hyh
        nlinarith
      · show ((size.2 : ℕ) : ℤ).toNat ≤ img.height
        rw [Int.toNat_natCast]
        exact le_of_lt hyh
    · rename_i hA
      -- portrait box: width clamps to the box width, height follows aspect
      push_neg at hA
      have hxw : size.1 < img.width := by
        by_contra hcon
        push_neg at hcon
        apply hfit
        have hcross : (size.1 : ℚ) * (img.height : ℚ) < (img.width : ℚ) * (size.2 : ℚ) := by
          rw [div_lt_div_iff (by push_cast; exact hy0) hh0] at hA
          push_cast at hA ⊢
          linarith
        have hcrossn : size.1 * img.height < img.width * size.2 := by exact_mod_cast hcross
        have hwx : img.width * img.height ≤ size.1 * img.height :=
          Nat.mul_le_mul_right _ hcon
        have hlt : img.width * img.height < img.width * size.2 :=
          Nat.lt_of_le_of_lt hwx hcrossn
        have hhy : img.height < size.2 := Nat.lt_of_mul_lt_mul_left hlt
        exact ⟨by exact_mod_cast hcon, by exact_mod_cast le_of_lt hhy⟩
      constructor
      · show ((size.1 : ℕ) : ℤ).toNat ≤ img.width
        rw [Int.toNat_natCast]
        exact le_of_lt hxw
      · show (round_aspect _ _).toNat ≤ img.height
        rw [Int.toNat_le]
        apply round_aspect_le _ _ _ (by exact_mod_cast hh)
        push_cast
        rw [div_div_eq_mul_div, div_le_iff hw0]
        have : (size.1 : ℚ) ≤ (img.width : ℚ) := by exact_mod_cast le_of_lt hxw
        nlinarith

/-- Helper: the conditional RGB conversion preserves pixel dimensions. -/
theorem dims_after_rgb_conversion (img : Img) :
    (if img.mode ≠ "RGB" then convertRGB img else img).width = img.width
    ∧ (if img.mode ≠ "RGB" then convertRGB img else img).height = img.height := by
  split <;> exact ⟨rfl, rfl⟩

/-- C8: the aggregator only ever downscales — in single-image processing the
payload's image is never larger than the decoded source image, and in grid
composition each cell-resized image is never larger than its source image. -/
theorem no_upscaling {β : Type} (attempts : ℕ → Option β) (decode : β → Option Img)
    (saveFile : String → Option String) (lot_title : String) (max_size : ℕ × ℕ)
    (save_local : Bool) (b : β) (src : Img) (p : Payload) (f : Img) (q : ℕ)
    (images : List (Option Img)) (grid_size output_size : ℕ × ℕ) (pl : Placement) :
    (downloadWithRetries attempts = some b → decode b = some src →
      1 ≤ src.width → 1 ≤ src.height → 1 ≤ max_size.1 → 1 ≤ max_size.2 →
      process_image_url attempts decode saveFile lot_title max_size save_local = some p →
      p.data = ImageData.b64jpeg f q →
      f.width ≤ src.width ∧ f.height ≤ src.height)
    ∧ (pl ∈ (create_image_grid images grid_size output_size).2 →
      1 ≤ pl.source.width → 1 ≤ pl.source.height →
      1 ≤ output_size.1 / grid_size.1 - 10 → 1 ≤ output_size.2 / grid_size.2 - 10 →
      pl.resized.width ≤ pl.source.width ∧ pl.resized.height ≤ pl.source.height) := by
  constructor
  · intro hdl hdec hw hh hx hy hp hdata
    simp only [process_image_url, hdl, hdec, Option.some.injEq] at hp
    subst hp
    simp only at hdata
    cases hdata
    have hdims := dims_after_rgb_conversion
      (if max_size.1 < src.width ∨ max_size.2 < src.height then thumbnail src max_size
        else src)
    rw [hdims.1, hdims.2]
    split
    · exact thumbnail_le src max_size hw hh hx hy
    · exact ⟨le_refl _, le_refl _⟩
  · intro hpl hw hh hx hy
    simp only [create_image_grid, List.mem_filterMap] at hpl
    obtain ⟨⟨k, o⟩, hmem, heq⟩ := hpl
    rw [Option.map_eq_some'] at heq
    obtain ⟨a, ho, ha⟩ := heq
    subst ha
    simp only at hw hh ⊢
    exact thumbnail_le a
      (output_size.1 / grid_size.1 - 10, output_size.2 / grid_size.2 - 10) hw hh hx hy

/-- Helper: `round_aspect` of an integer-valued rational is that integer
clamped to at least 1 (floor and ceiling coincide). -/
theorem round_aspect_intCast (n : ℤ) (key : ℤ → ℚ) :
    round_aspect ((n : ℤ) : ℚ) key = max n 1 := by
  simp [round_aspect, Int.floor_intCast, Int.ceil_intCast]

/-- Helper: the modelled PIL `thumbnail` maps a 2000 by 1500 image into a
1024 bounding box as 1024 by 768. -/
theorem thumbnail_2000_1500 :
    thumbnail (Img.mk 2000 1500 "RGB") (1024, 1024) = Img.mk 1024 768 "RGB" := by
  simp only [thumbnail]
  rw [if_neg (by norm_num), if_neg (by norm_num)]
  rw [show ((((1024 : ℕ) : ℤ)) : ℚ) / (((2000 : ℕ) : ℚ) / ((1500 : ℕ) : ℚ))
      = ((768 : ℤ) : ℚ) by push_cast; norm_num]
  rw [round_aspect_intCast]
  rfl

/-- Witness for C8: a 2000 by 1500 source resized to 1024 by 768 within a
1024 bounding box, and a 100 by 100 grid-cell image left untouched. -/
theorem no_upscaling_witness :
    ((Img.mk 1024 768 "RGB").width ≤ (Img.mk 2000 1500 "RGB").width
      ∧ (Img.mk 1024 768 "RGB").height ≤ (Img.mk 2000 1500 "RGB").height)
    ∧ ((Placement.mk 0 (Img.mk 100 100 "RGB") (Img.mk 100 100 "RGB") 462 462).resized.width
        ≤ (Placement.mk 0 (Img.mk 100 100 "RGB") (Img.mk 100 100 "RGB") 462 462).source.width
      ∧ (Placement.mk 0 (Img.mk 100 100 "RGB") (Img.mk 100 100 "RGB") 462 462).resized.height
        ≤ (Placement.mk 0 (Img.mk 100 100 "RGB") (Img.mk 100 100 "RGB") 462
            462).source.height) :=
  ⟨(no_upscaling (okDownload "u") okDecodeBig noSave "t" (1024, 1024) true 0
      (Img.mk 2000 1500 "RGB")
      (Payload.mk "image/jpeg" (ImageData.b64jpeg (Img.mk 1024 768 "RGB") 85) none none)
      (Img.mk 1024 768 "RGB") 85 [some (Img.mk 100 100 "RGB")] (1, 1) (1024, 1024)
      (Placement.mk 0 (Img.mk 100 100 "RGB") (Img.mk 100 100 "RGB") 462 462)).1
    rfl rfl (by decide) (by decide) (by decide) (by decide)
    (by
      simp only [process_image_url, downloadWithRetries, okDownload, okDecodeBig, noSave]
      norm_num [thumbnail_2000_1500])
    rfl,
    (no_upscaling (okDownload "u") okDecodeBig noSave "t" (1024, 1024) true 0
      (Img.mk 2000 1500 "RGB")
      (Payload.mk "image/jpeg" (ImageData.b64jpeg (Img.mk 1024 768 "RGB") 85) none none)
      (Img.mk 1024 768 "RGB") 85 [some (Img.mk 100 100 "RGB")] (1, 1) (1024, 1024)
      (Placement.mk 0 (Img.mk 100 100 "RGB") (Img.mk 100 100 "RGB") 462 462)).2
    (by decide) (by decide) (by decide) (by decide) (by decide)⟩
